import Mathlib

/-!
Verification of the signature-introspection-and-binding engine of the
`arglink_project` repository (modules `arglink/core.py`, `argkit/core.py`
and `argkit/runtime.py`) against its natural-language specification.

The Python code is shallowly embedded: a callable's introspected parameter
list becomes a `List Param`, the four supported value types become the
closed inductive `Ty`, Python runtime values that can occur as parameter
defaults become `Value`, and each analyzer becomes a structurally
recursive Lean function over the parameter list, threading the mutable
attribute state (`dict` attributes attached to the callable) explicitly.
-/

namespace ArgLink

/-- The closed set of supported value types, `(int, float, bool, str)` in
`arglink/core.py` line 191 and `argkit/core.py` line 124. -/
inductive Ty where
  | tint
  | tfloat
  | tbool
  | tstr
deriving DecidableEq, Repr

/-- The metavar text `this_param_type.__name__.upper()` for each of the
four supported types. -/
def metavarName : Ty → String
  | .tint => "INT"
  | .tfloat => "FLOAT"
  | .tbool => "BOOL"
  | .tstr => "STR"

/-- Python `name.replace` of underscores by hyphens: a character-wise
map, since the pattern is a single character. -/
def kebab (s : String) : String :=
  ⟨s.data.map fun c => if c = '_' then '-' else c⟩

/-- A Python value that can appear as a parameter default. Real-number
defaults are modelled as rationals (the code never computes with them; it
only compares them to `False` and renders them). `vnone` is the Python
`None` sentinel. `vother` stands for a default of any unsupported runtime
type (list, dict, custom object, ...), tagged by a descriptive string. -/
inductive Value where
  | vint : Int → Value
  | vfloat : ℚ → Value
  | vbool : Bool → Value
  | vstr : String → Value
  | vnone
  | vother : String → Value
deriving DecidableEq, Repr

/-- Result of Python `type(v)` restricted to the closed set: `none` means
the runtime type is outside `(int, float, bool, str)` (for example
`NoneType` or `list`). -/
def runtimeTy : Value → Option Ty
  | .vint _ => some .tint
  | .vfloat _ => some .tfloat
  | .vbool _ => some .tbool
  | .vstr _ => some .tstr
  | .vnone => none
  | .vother _ => none

/-- Python `v == False` for the values a default can take: `False == False`,
`0 == False` and `0.0 == False` are true; strings, `None` and container
values never equal `False`. -/
def pyEqFalse : Value → Bool
  | .vint n => n == 0
  | .vfloat q => q == 0
  | .vbool b => !b
  | .vstr _ => false
  | .vnone => false
  | .vother _ => false

/-- Python `repr` of a default value, used for the rendered-default help
prefix. String quoting is modelled without escape handling, and rationals
with denominator 1 render with a trailing `.0` as Python floats do; other
rationals fall back to the numerator/denominator rendering (the claims do
not depend on the decimal rendering of non-integral floats). -/
def pyRepr : Value → String
  | .vint n => toString n
  | .vfloat q =>
      if q.den = 1 then toString q.num ++ ".0"
      else toString q.num ++ "/" ++ toString q.den
  | .vbool b => if b then "True" else "False"
  | .vstr s => String.singleton (Char.ofNat 39) ++ s ++ String.singleton (Char.ofNat 39)
  | .vnone => "None"
  | .vother s => s

/-- A declared type annotation as the analyzers can observe it:
`aty t` is a concrete type in the closed set, `atyOther` is an object that
passes `isinstance(annotation, type)` but is outside the closed set (such
as `list`), and `anotType` is an annotation that is not a type instance at
all (such as a string annotation or a `typing` construct). -/
inductive Ann where
  | aty : Ty → Ann
  | atyOther
  | anotType
deriving DecidableEq, Repr

/-- The parameter kinds of `inspect.Parameter` that matter here. -/
inductive PKind where
  | positionalOrKeyword
  | positionalOnly
  | keywordOnly
  | varPositional
  | varKeyword
deriving DecidableEq, Repr

/-- One introspected parameter descriptor: `annotation = none` models
`param.annotation is param.empty`, `default = none` models
`param.default is param.empty`, and a Python default of `None` is
`default = some .vnone`. -/
structure Param where
  name : String
  kind : PKind
  ann : Option Ann
  default : Option Value
deriving DecidableEq, Repr

/-- The error taxonomy of the specification, mapped onto the concrete
failure sites of the code: the `POSITIONAL_OR_KEYWORD` asserts raise
`unsupportedParameterKind`; a missing annotation with no usable default
raises `missingTypeInformation` (arglink line 188, argkit line 111); a
non-type annotation, a non-set type annotation, or a default of a runtime
type outside the closed set raises `unsupportedType` (arglink lines 176
and 191, argkit lines 113 and 124); a `KeyError` during reverse binding is
`missingParsedValue`. -/
inductive ArgError where
  | unsupportedParameterKind
  | unsupportedType
  | missingTypeInformation
  | missingParsedValue
deriving DecidableEq, Repr

/-- The action kinds the synthesized flags use. -/
inductive ActionKind where
  | store
  | storeTrue
  | storeFalse
deriving DecidableEq, Repr

/-- One synthesized flag definition: the `args`/`kwargs` pair recorded for
`add_argument`. Keyword arguments that the code leaves out of the `kwargs`
dict are modelled as `none` (or `false` for `required`): `store_true` and
`store_false` entries carry only the action and the help text. -/
structure FlagDef where
  args : List String
  action : ActionKind
  coerceTy : Option Ty
  default : Option Value
  required : Bool
  metavar : Option String
  help : String
deriving DecidableEq, Repr

/-- One row of the binding state for one retained parameter. The two
Python dict attributes (`..._callable_args_to_parser_args` keyed to
`parser_key` and `..._callable_args_to_args_for_add_augment` keyed to
`flag`) are always written together under the same key `name` in every
branch of the loop body, so they are modelled as a single entry list with
the two projections `parserTable` and `flagTable` below. -/
structure ArgEntry where
  name : String
  parserKey : String
  flag : FlagDef
deriving DecidableEq, Repr

/-- Association-list lookup, modelling a Python dict read (first match,
which is the only match since the entry lists have unique keys). -/
def alookup {α : Type} : List (String × α) → String → Option α
  | [], _ => none
  | (k, v) :: rest, key => if k = key then some v else alookup rest key

/-- Python dict assignment `d[e.name] = ...`: update the existing entry of
the same name in place, else append. -/
def insertEntry : List ArgEntry → ArgEntry → List ArgEntry
  | [], ent => [ent]
  | e :: es, ent => if e.name = ent.name then ent :: es else e :: insertEntry es ent

/-- Projection of the entry list to the `name → parser_key` dict
(`_arglink_callable_args_to_parser_args` resp.
`dict_callable_args_to_parser_args`). -/
def parserTable (es : List ArgEntry) : List (String × String) :=
  es.map fun e => (e.name, e.parserKey)

/-- Projection of the entry list to the `name → add_argument arguments`
dict. -/
def flagTable (es : List ArgEntry) : List (String × FlagDef) :=
  es.map fun e => (e.name, e.flag)

/-- Flag synthesis for one retained parameter, shared verbatim between
`arglink/core.py` lines 198-249 and `argkit/core.py` lines 132-179:
kebab-cased long flag, boolean polarity suffixes on both the flag token
and the parser key, and required/default/metavar/help for the non-boolean
case. `dv` is `this_param_default_value` (the declared default, or `None`
when absent) and `hasDefault` is `this_param_has_default`. -/
def buildEntry (name : String) (t : Ty) (hasDefault : Bool) (dv : Value)
    (help : String) : ArgEntry :=
  let flagBase := "--" ++ kebab name
  if t = .tbool then
    if pyEqFalse dv ∨ dv = .vnone then
      { name := name
        parserKey := name ++ "_store_true"
        flag := { args := [flagBase ++ "-store-true"], action := .storeTrue,
                  coerceTy := none, default := none, required := false,
                  metavar := none, help := help } }
    else
      { name := name
        parserKey := name ++ "_store_false"
        flag := { args := [flagBase ++ "-store-false"], action := .storeFalse,
                  coerceTy := none, default := none, required := false,
                  metavar := none, help := help } }
  else
    if hasDefault then
      { name := name
        parserKey := name
        flag := { args := [flagBase], action := .store, coerceTy := some t,
                  default := some dv, required := false,
                  metavar := some (metavarName t),
                  help := "(default: " ++ pyRepr dv ++ ") " ++ help } }
    else
      { name := name
        parserKey := name
        flag := { args := [flagBase], action := .store, coerceTy := some t,
                  default := none, required := true,
                  metavar := some (metavarName t), help := help } }

/-- Outcome of processing one parameter inside the analysis loop: skipped
by the name filter (Python `continue`), aborted with an exception, or an
entry written to the binding tables. -/
inductive StepResult where
  | skip
  | fail : ArgError → StepResult
  | add : ArgEntry → StepResult
deriving DecidableEq, Repr

/-- Modelled from argparse (the external parsing surface): the value a
flag contributes to the parsed namespace when it is absent from the
command line. A `store_true` action defaults to `False`, a `store_false`
action to `True`, and a plain store flag contributes its declared default,
or nothing when it is a required flag with no default. -/
def effDefault (fd : FlagDef) : Option Value :=
  match fd.action with
  | .storeTrue => some (.vbool false)
  | .storeFalse => some (.vbool true)
  | .store => fd.default

/-- Type extraction of `arglink/core.py` lines 167-196: the annotation is
consulted first whenever one is present; a non-type annotation and a type
outside the closed set both abort; only with no annotation at all is the
default's runtime type used; with neither, `missingTypeInformation`. -/
def arglinkInferTy (p : Param) : Except ArgError Ty :=
  match p.ann with
  | some (.aty t) => .ok t
  | some .atyOther => .error .unsupportedType
  | some .anotType => .error .unsupportedType
  | none =>
    match p.default with
    | some d =>
      match runtimeTy d with
      | some t => .ok t
      | none => .error .unsupportedType
    | none => .error .missingTypeInformation

/-- Help-message lookup of `arglink/core.py` lines 199-202: the attribute
is truthiness-tested (an absent or empty dict yields the empty help). -/
def arglinkHelp (hm : List (String × String)) (n : String) : String :=
  if hm.isEmpty then "" else (alookup hm n).getD ""

/-- One iteration of the analysis loop of `arglink/core.py` lines
158-249: the ignore-pattern filter runs first (Python `continue`), then
the `POSITIONAL_OR_KEYWORD` assert, then type extraction and flag
synthesis. The regular-expression full-match against
`_arglink_ignore_patterns` is abstracted as the Boolean predicate `ign`
on the parameter name. -/
def arglinkStep (hm : List (String × String)) (ign : String → Bool)
    (p : Param) : StepResult :=
  if ign p.name then .skip
  else if p.kind = .positionalOrKeyword then
    match arglinkInferTy p with
    | .error e => .fail e
    | .ok t =>
        .add (buildEntry p.name t p.default.isSome (p.default.getD .vnone)
          (arglinkHelp hm p.name))
  else .fail .unsupportedParameterKind

/-- The analysis loop over the parameter list, threading the entry list
(the two dict attributes of the callable). An exception stops the loop
and leaves the entries written so far in place, exactly as the in-place
dict writes of the Python loop do. -/
def arglinkLoop (hm : List (String × String)) (ign : String → Bool) :
    List Param → List ArgEntry → List ArgEntry × Option ArgError
  | [], es => (es, none)
  | p :: ps, es =>
    match arglinkStep hm ign p with
    | .skip => arglinkLoop hm ign ps es
    | .fail e => (es, some e)
    | .add ent => arglinkLoop hm ign ps (insertEntry es ent)

/-- The attribute state that `setup_arglink` attaches to a callable:
the help-message dict, the ignore predicate, the binding entries (both
dict attributes), and the `_arglink_has_been_analyzed` marker. -/
structure ArglinkState where
  helpMessages : List (String × String)
  ignore : String → Bool
  entries : List ArgEntry
  hasBeenAnalyzed : Bool

/-- The default ignore-pattern list of `setup_arglink`
(`[r...self..., r...cls..., names ending in an underscore]`) as the
predicate it denotes under full-string matching. -/
def defaultIgnore (s : String) : Bool :=
  s == "self" || s == "cls" || s.data.getLast? == some (Char.ofNat 95)

/-- The decorator `setup_arglink`: fresh state with empty binding dicts,
the analyzed marker unset, and the default ignore patterns when none are
supplied. -/
def setupArglink (hm : List (String × String))
    (ignoreOpt : Option (String → Bool)) : ArglinkState :=
  { helpMessages := hm, ignore := ignoreOpt.getD defaultIgnore,
    entries := [], hasBeenAnalyzed := false }

/-- `arglink/core.py` `analyze_callable_args`: returns immediately when
the analyzed marker is set (lines 153-154); otherwise runs the loop and
sets the marker only after the whole loop succeeded (line 251). A failure
propagates with the partially written entries still attached. -/
def analyzeCallableArgs (ps : List Param) (s : ArglinkState) :
    ArglinkState × Option ArgError :=
  if s.hasBeenAnalyzed then (s, none)
  else
    match arglinkLoop s.helpMessages s.ignore ps s.entries with
    | (es, none) => ({ s with entries := es, hasBeenAnalyzed := true }, none)
    | (es, some e) => ({ s with entries := es }, some e)

/-- The reverse binder, `arglink/core.py` lines 309-314 and the identical
`argkit/core.py` lines 204-209: for each `name → parser_key` row of the
analyzed table, look the parser key up in the parsed-value dict and place
the value untouched under the callable argument name; a missing key
raises (`KeyError`, the specification's `missingParsedValue`). -/
def parserArgsToCallableKwDict (table : List (String × String))
    (args : List (String × Value)) : Except ArgError (List (String × Value)) :=
  match table with
  | [] => .ok []
  | (n, pk) :: rest =>
    match alookup args pk with
    | none => .error .missingParsedValue
    | some v =>
      match parserArgsToCallableKwDict rest args with
      | .ok l => .ok ((n, v) :: l)
      | .error e => .error e

/-- The simulated parsed-value dict of the round-trip property: every
flag contributes the value argparse would report when the flag is absent
from the command line (its effective default); required flags contribute
nothing. -/
def simParsed (es : List ArgEntry) : List (String × Value) :=
  es.filterMap fun e => (effDefault e.flag).map fun v => (e.parserKey, v)

/-- The expected keyword-argument dict of the round-trip property: each
retained name mapped to its flag's effective default. -/
def kwOfDefaults (es : List ArgEntry) : List (String × Value) :=
  es.map fun e => (e.name, (effDefault e.flag).getD .vnone)

/-- The attribute state of `attach_argkit_meta_info` in `argkit/core.py`:
the optional help-message and ignore-list entries of `obj_dict`, and the
`skip_first` / `auto_skip` switches. -/
structure ArgkitConfig where
  helpMsgs : Option (List (String × String))
  ignoreList : Option (List String)
  skipFirst : Bool
  autoSkip : Bool

/-- The ignore-list test of `argkit/core.py` line 95: membership, applied
only when an ignore list is present in `obj_dict`. -/
def argkitIgnored (cfg : ArgkitConfig) (n : String) : Bool :=
  match cfg.ignoreList with
  | some l => l.contains n
  | none => false

/-- Help lookup of `argkit/core.py` line 134. -/
def argkitHelp (cfg : ArgkitConfig) (n : String) : String :=
  match cfg.helpMsgs with
  | some m => (alookup m n).getD ""
  | none => ""

/-- Type and default extraction of `argkit/core.py` lines 104-130 (the
identical logic is `argkit/runtime.py` lines 29-43): a present, non-None
default is consulted FIRST and its runtime type must be in the closed
set; the annotation is consulted only when the default is absent or None,
must be present, must be a type instance, and must be in the closed set.
The error value names the specification's category for the failing
assert. -/
def argkitInfer (p : Param) : Except ArgError (Ty × Value) :=
  match p.default with
  | some d =>
    if d = .vnone then
      match p.ann with
      | none => .error .missingTypeInformation
      | some .anotType => .error .unsupportedType
      | some .atyOther => .error .unsupportedType
      | some (.aty t) => .ok (t, .vnone)
    else
      match runtimeTy d with
      | some t => .ok (t, d)
      | none => .error .unsupportedType
  | none =>
    match p.ann with
    | none => .error .missingTypeInformation
    | some .anotType => .error .unsupportedType
    | some .atyOther => .error .unsupportedType
    | some (.aty t) => .ok (t, .vnone)

/-- One iteration of the `argkit/core.py` analysis loop, lines 93-179:
ignore-list filter first, then the kind assert (not guarded by
`auto_skip`), then inference, where an inference failure is turned into a
skip when `auto_skip` is on (the two `try`/`except ... continue` blocks),
then the shared flag synthesis. -/
def argkitStep (cfg : ArgkitConfig) (p : Param) : StepResult :=
  if argkitIgnored cfg p.name then .skip
  else if p.kind = .positionalOrKeyword then
    match argkitInfer p with
    | .error e => if cfg.autoSkip then .skip else .fail e
    | .ok (t, dv) =>
        .add (buildEntry p.name t p.default.isSome dv (argkitHelp cfg p.name))
  else .fail .unsupportedParameterKind

/-- The `argkit/core.py` analysis loop over the (possibly
first-skipped) parameter list, threading the two dicts of `obj_dict`. -/
def argkitLoop (cfg : ArgkitConfig) :
    List Param → List ArgEntry → List ArgEntry × Option ArgError
  | [], es => (es, none)
  | p :: ps, es =>
    match argkitStep cfg p with
    | .skip => argkitLoop cfg ps es
    | .fail e => (es, some e)
    | .add ent => argkitLoop cfg ps (insertEntry es ent)

/-- `argkit/core.py` `analyze_callable_args`: resets both dicts of
`obj_dict` to empty (lines 86-87), drops the first parameter when
`skip_first` is set (line 91), and runs the loop. There is no
already-analyzed marker in this module. -/
def argkitAnalyze (cfg : ArgkitConfig) (ps : List Param) :
    List ArgEntry × Option ArgError :=
  argkitLoop cfg (if cfg.skipFirst then ps.drop 1 else ps) []

/-- Flag synthesis of `argkit/runtime.py` `cls_arg_to_parser`, lines
50-74. It differs from `buildEntry` in two ways: the help text of a
defaulted non-boolean flag is the configured message unchanged (no
rendered-default prefix), and the name map is stored in the direction
`parser_key → callable name`; the result triple is
`(parserKey, clsName, flag)`. -/
def clsArgBuild (name : String) (t : Ty) (hasDefault : Bool) (dv : Value)
    (help : String) : String × String × FlagDef :=
  let flagBase := "--" ++ kebab name
  if t = .tbool then
    if pyEqFalse dv ∨ dv = .vnone then
      (name ++ "_store_true", name,
        { args := [flagBase ++ "-store-true"], action := .storeTrue,
          coerceTy := none, default := none, required := false,
          metavar := none, help := help })
    else
      (name ++ "_store_false", name,
        { args := [flagBase ++ "-store-false"], action := .storeFalse,
          coerceTy := none, default := none, required := false,
          metavar := none, help := help })
  else
    if hasDefault then
      (name, name,
        { args := [flagBase], action := .store, coerceTy := some t,
          default := some dv, required := false,
          metavar := some (metavarName t), help := help })
    else
      (name, name,
        { args := [flagBase], action := .store, coerceTy := some t,
          default := none, required := true,
          metavar := some (metavarName t), help := help })

/-- One iteration of the `argkit/runtime.py` `cls_arg_to_parser` loop,
lines 19-74: filter against the values of the ignore map, the kind
assert, default-first inference (no auto-skip in this module), then flag
synthesis without the rendered-default help prefix. `.ok none` is a
filtered parameter. -/
def clsArgStep (helpMsgs : Option (List (String × String)))
    (ignoreVals : Option (List String)) (p : Param) :
    Except ArgError (Option (String × String × FlagDef)) :=
  if (match ignoreVals with | some l => l.contains p.name | none => false) then
    .ok none
  else if p.kind = .positionalOrKeyword then
    match argkitInfer p with
    | .error e => .error e
    | .ok (t, dv) =>
      .ok (some (clsArgBuild p.name t p.default.isSome dv
        (match helpMsgs with | some m => (alookup m p.name).getD "" | none => "")))
  else .error .unsupportedParameterKind

/-! Helper lemmas shared by several claim proofs. -/

/-- Membership after a dict write: the element is an old one or the
written entry. -/
theorem mem_insertEntry {es : List ArgEntry} {ent x : ArgEntry}
    (h : x ∈ insertEntry es ent) : x ∈ es ∨ x = ent := by
  induction es with
  | nil =>
    simp [insertEntry] at h
    exact Or.inr h
  | cons e rest ih =>
    by_cases he : e.name = ent.name
    · rw [insertEntry, if_pos he] at h
      rcases List.mem_cons.mp h with h | h
      · exact Or.inr h
      · exact Or.inl (List.mem_cons_of_mem _ h)
    · rw [insertEntry, if_neg he] at h
      rcases List.mem_cons.mp h with h | h
      · exact Or.inl (h ▸ List.mem_cons_self _ _)
      · rcases ih h with h | h
        · exact Or.inl (List.mem_cons_of_mem _ h)
        · exact Or.inr h

/-- The synthesized entry is always keyed by the parameter name. -/
theorem buildEntry_name (n : String) (t : Ty) (hd : Bool) (dv : Value)
    (help : String) : (buildEntry n t hd dv help).name = n := by
  unfold buildEntry
  split <;> split <;> rfl

/-- Every entry produced by a successful run of the arglink loop was
already in the accumulated list or comes from an `.add` step of one of
the processed parameters. -/
theorem arglinkLoop_entry_origin (hm : List (String × String))
    (ign : String → Bool) :
    ∀ (ps : List Param) (es es' : List ArgEntry),
      arglinkLoop hm ign ps es = (es', none) →
      ∀ e ∈ es', e ∈ es ∨ ∃ p ∈ ps, arglinkStep hm ign p = .add e := by
  intro ps
  induction ps with
  | nil =>
    intro es es' h e he
    rw [arglinkLoop] at h
    cases h
    exact Or.inl he
  | cons p rest ih =>
    intro es es' h e he
    rw [arglinkLoop] at h
    cases hs : arglinkStep hm ign p with
    | skip =>
      rw [hs] at h
      rcases ih es es' h e he with h' | ⟨q, hq, hq'⟩
      · exact Or.inl h'
      · exact Or.inr ⟨q, List.mem_cons_of_mem _ hq, hq'⟩
    | fail err =>
      rw [hs] at h
      cases h
    | add ent =>
      rw [hs] at h
      rcases ih _ es' h e he with h' | ⟨q, hq, hq'⟩
      · rcases mem_insertEntry h' with h'' | rfl
        · exact Or.inl h''
        · exact Or.inr ⟨p, List.mem_cons_self _ _, hs⟩
      · exact Or.inr ⟨q, List.mem_cons_of_mem _ hq, hq'⟩

/-- An `.add` step implies the parameter passed the name filter and the
entry is keyed by its name. -/
theorem arglinkStep_add_name {hm : List (String × String)}
    {ign : String → Bool} {p : Param} {e : ArgEntry}
    (h : arglinkStep hm ign p = .add e) :
    ign p.name = false ∧ e.name = p.name := by
  unfold arglinkStep at h
  by_cases hig : ign p.name
  · rw [if_pos hig] at h
    cases h
  · rw [if_neg hig] at h
    refine ⟨by simpa using hig, ?_⟩
    by_cases hk : p.kind = .positionalOrKeyword
    · rw [if_pos hk] at h
      cases ht : arglinkInferTy p with
      | error err => rw [ht] at h; cases h
      | ok t =>
        rw [ht] at h
        cases h
        exact buildEntry_name ..
    · rw [if_neg hk] at h
      cases h

/-- Reverse binding succeeds and reproduces the looked-up values when
every parser key of the table is present in the parsed-value dict. -/
theorem kwDict_ok_of_lookup (table : List (String × String))
    (args : List (String × Value)) (f : String × String → Value)
    (h : ∀ x ∈ table, alookup args x.2 = some (f x)) :
    parserArgsToCallableKwDict table args =
      .ok (table.map fun x => (x.1, f x)) := by
  induction table with
  | nil => rfl
  | cons hd tl ih =>
    obtain ⟨n, pk⟩ := hd
    have hhd := h (n, pk) (List.mem_cons_self _ _)
    rw [parserArgsToCallableKwDict, hhd,
      ih fun x hx => h x (List.mem_cons_of_mem _ hx)]
    rfl

/-- Reverse binding raises `missingParsedValue` when some parser key of
the table is absent from the parsed-value dict. -/
theorem kwDict_error_of_missing (table : List (String × String))
    (args : List (String × Value))
    (h : ∃ x ∈ table, alookup args x.2 = none) :
    parserArgsToCallableKwDict table args = .error .missingParsedValue := by
  induction table with
  | nil => simp at h
  | cons hd tl ih =>
    obtain ⟨n, pk⟩ := hd
    obtain ⟨x, hx, hnone⟩ := h
    rcases List.mem_cons.mp hx with rfl | hx'
    · rw [parserArgsToCallableKwDict, hnone]
    · rw [parserArgsToCallableKwDict]
      cases hl : alookup args pk
      · rfl
      · rw [ih ⟨x, hx', hnone⟩]

/-- C5: Idempotent analysis. A successful (or fast-path) call of the
arglink analyzer leaves the already-analyzed marker set, and calling it
again returns the same state with no error by the marker fast path of
lines 153-154, performing no further filtering or inference work and
leaving the cached binding table unchanged. -/
theorem analyze_idempotent (ps : List Param) (s s1 : ArglinkState)
    (h : analyzeCallableArgs ps s = (s1, none)) :
    s1.hasBeenAnalyzed = true ∧ analyzeCallableArgs ps s1 = (s1, none) := by
  unfold analyzeCallableArgs at h
  by_cases hb : s.hasBeenAnalyzed
  · rw [if_pos hb] at h
    have hs : s = s1 := congrArg Prod.fst h
    subst hs
    exact ⟨hb, by rw [analyzeCallableArgs, if_pos hb]⟩
  · rw [if_neg hb] at h
    cases hl : arglinkLoop s.helpMessages s.ignore ps s.entries with
    | mk es oerr =>
      rw [hl] at h
      cases oerr with
      | none =>
        have hs : ({ s with entries := es, hasBeenAnalyzed := true } : ArglinkState) = s1 :=
          congrArg Prod.fst h
        subst hs
        exact ⟨rfl, by rw [analyzeCallableArgs]; rfl⟩
      | some e =>
        have : (some e : Option ArgError) = none := congrArg Prod.snd h
        cases this

/-- Witness for `analyze_idempotent` at a concrete two-parameter
callable. -/
theorem analyze_idempotent_witness :
    ((analyzeCallableArgs
        [⟨"count", .positionalOrKeyword, some (.aty .tint), none⟩,
         ⟨"verbose", .positionalOrKeyword, none, some (.vbool false)⟩]
        (setupArglink [] none)).1).hasBeenAnalyzed = true ∧
    analyzeCallableArgs
        [⟨"count", .positionalOrKeyword, some (.aty .tint), none⟩,
         ⟨"verbose", .positionalOrKeyword, none, some (.vbool false)⟩]
        ((analyzeCallableArgs
          [⟨"count", .positionalOrKeyword, some (.aty .tint), none⟩,
           ⟨"verbose", .positionalOrKeyword, none, some (.vbool false)⟩]
          (setupArglink [] none)).1) =
      ((analyzeCallableArgs
          [⟨"count", .positionalOrKeyword, some (.aty .tint), none⟩,
           ⟨"verbose", .positionalOrKeyword, none, some (.vbool false)⟩]
          (setupArglink [] none)).1, none) :=
  analyze_idempotent
    [⟨"count", .positionalOrKeyword, some (.aty .tint), none⟩,
     ⟨"verbose", .positionalOrKeyword, none, some (.vbool false)⟩]
    (setupArglink [] none)
    ((analyzeCallableArgs
        [⟨"count", .positionalOrKeyword, some (.aty .tint), none⟩,
         ⟨"verbose", .positionalOrKeyword, none, some (.vbool false)⟩]
        (setupArglink [] none)).1)
    (by rfl)


/-- An `.add` step at a parameter with a declared default, whose default
is an actual boolean whenever the inferred type is boolean, produces a
flag whose effective (flag-absent) value is exactly that default. -/
theorem arglinkStep_add_eff {hm : List (String × String)}
    {ign : String → Bool} {p : Param} {e : ArgEntry} {d : Value}
    (h : arglinkStep hm ign p = .add e) (hd : p.default = some d)
    (hb : arglinkInferTy p = .ok .tbool → ∃ b, d = .vbool b) :
    effDefault e.flag = some d := by
  unfold arglinkStep at h
  by_cases hig : ign p.name
  · rw [if_pos hig] at h
    cases h
  · rw [if_neg hig] at h
    by_cases hk : p.kind = .positionalOrKeyword
    · rw [if_pos hk] at h
      cases ht : arglinkInferTy p with
      | error err => rw [ht] at h; cases h
      | ok t =>
        rw [ht] at h
        cases h
        rw [hd]
        cases t with
        | tbool =>
          obtain ⟨b, rfl⟩ := hb ht
          cases b <;> simp [buildEntry, pyEqFalse, effDefault]
        | tint => simp [buildEntry, effDefault]
        | tfloat => simp [buildEntry, effDefault]
        | tstr => simp [buildEntry, effDefault]
    · rw [if_neg hk] at h
      cases h

/-- When every entry's flag has an effective default, the simulated
parsed-value dict is the pointwise map of the entries. -/
theorem simParsed_eq_map (es : List ArgEntry)
    (h : ∀ e ∈ es, (effDefault e.flag).isSome) :
    simParsed es =
      es.map fun e => (e.parserKey, (effDefault e.flag).getD .vnone) := by
  induction es with
  | nil => rfl
  | cons e tl ih =>
    have he := h e (List.mem_cons_self _ _)
    cases hv : effDefault e.flag with
    | none => rw [hv] at he; cases he
    | some v =>
      rw [simParsed, List.filterMap_cons]
      rw [simParsed] at ih
      rw [hv, ih fun x hx => h x (List.mem_cons_of_mem _ hx), List.map_cons, hv]
      rfl

/-- Dict lookup in a list keyed by pairwise-distinct parser keys finds
each entry's own value. -/
theorem alookup_keyed (g : ArgEntry → Value) :
    ∀ (es : List ArgEntry), (es.map ArgEntry.parserKey).Nodup →
      ∀ e ∈ es, alookup (es.map fun x => (x.parserKey, g x)) e.parserKey
        = some (g e) := by
  intro es
  induction es with
  | nil => intro _ e he; cases he
  | cons e0 tl ih =>
    intro hnd e he
    rw [List.map_cons, List.nodup_cons] at hnd
    rcases List.mem_cons.mp he with rfl | he'
    · rw [List.map_cons, alookup, if_pos rfl]
    · have hk : e0.parserKey ≠ e.parserKey := fun hk =>
        hnd.1 (hk ▸ List.mem_map_of_mem ArgEntry.parserKey he')
      rw [List.map_cons, alookup, if_neg hk]
      exact ih hnd.2 e he'

/-- Core of the round-trip property, stated on a successful run of the
arglink analysis loop from the fresh (empty) binding tables. -/
theorem round_trip_entries (hm : List (String × String))
    (ign : String → Bool) (ps : List Param) (es : List ArgEntry)
    (hloop : arglinkLoop hm ign ps [] = (es, none))
    (hnames : (ps.map Param.name).Nodup)
    (hdef : ∀ p ∈ ps, ign p.name = false →
      ∃ d, p.default = some d ∧
        (arglinkInferTy p = .ok .tbool → ∃ b, d = .vbool b))
    (hkeys : (es.map ArgEntry.parserKey).Nodup) :
    parserArgsToCallableKwDict (parserTable es) (simParsed es)
      = .ok (kwOfDefaults es) ∧
    ∀ p ∈ ps, ∀ e ∈ es, e.name = p.name →
      effDefault e.flag = p.default := by
  have horigin : ∀ e ∈ es, ∃ p ∈ ps, arglinkStep hm ign p = .add e := by
    intro e he
    rcases arglinkLoop_entry_origin hm ign ps [] es hloop e he with h | h
    · cases h
    · exact h
  have heff : ∀ e ∈ es, ∃ p ∈ ps, ∃ d, e.name = p.name ∧
      p.default = some d ∧ effDefault e.flag = some d := by
    intro e he
    obtain ⟨p, hp, hstep⟩ := horigin e he
    obtain ⟨hig, hname⟩ := arglinkStep_add_name hstep
    obtain ⟨d, hd, hb⟩ := hdef p hp hig
    exact ⟨p, hp, d, hname, hd, arglinkStep_add_eff hstep hd hb⟩
  have hsome : ∀ e ∈ es, (effDefault e.flag).isSome := by
    intro e he
    obtain ⟨p, -, d, -, -, heq⟩ := heff e he
    rw [heq]
    rfl
  constructor
  · rw [simParsed_eq_map es hsome]
    rw [kwDict_ok_of_lookup (parserTable es)
      (es.map fun e => (e.parserKey, (effDefault e.flag).getD .vnone))
      (fun x => (alookup (es.map fun e =>
        (e.parserKey, (effDefault e.flag).getD .vnone)) x.2).getD .vnone) ?_]
    · unfold parserTable kwOfDefaults
      rw [List.map_map]
      congr 1
      refine List.map_congr_left fun e he => ?_
      simp only [Function.comp_apply]
      rw [alookup_keyed _ es hkeys e he]
      rfl
    · intro x hx
      obtain ⟨e, he, rfl⟩ := List.mem_map.mp hx
      simp only
      rw [alookup_keyed _ es hkeys e he]
      rfl
  · intro p hp e he hname
    obtain ⟨q, hq, d, hqname, hqd, heq⟩ := heff e he
    have : q = p :=
      List.inj_on_of_nodup_map hnames hq hp (by rw [← hqname, hname])
    subst this
    rw [heq, hqd]

/-- C8 (amended): a failed analysis never sets the already-analyzed
marker and touches nothing but the entry tables, so no completed binding
table is ever recorded for the callable; the entries written before the
failing parameter, however, remain in the tables (see the accompanying
counterexample). -/
theorem failed_analysis_marker_unset (ps : List Param) (s s1 : ArglinkState)
    (e : ArgError) (h : analyzeCallableArgs ps s = (s1, some e)) :
    s1 = { s with entries := s1.entries } ∧
    s1.hasBeenAnalyzed = s.hasBeenAnalyzed := by
  unfold analyzeCallableArgs at h
  by_cases hb : s.hasBeenAnalyzed
  · rw [if_pos hb] at h
    have : (none : Option ArgError) = some e := congrArg Prod.snd h
    cases this
  · rw [if_neg hb] at h
    cases hl : arglinkLoop s.helpMessages s.ignore ps s.entries with
    | mk es oerr =>
      rw [hl] at h
      cases oerr with
      | none =>
        have : (none : Option ArgError) = some e := congrArg Prod.snd h
        cases this
      | some e' =>
        have hs : ({ s with entries := es } : ArglinkState) = s1 :=
          congrArg Prod.fst h
        subst hs
        exact ⟨rfl, rfl⟩

/-- Witness for `failed_analysis_marker_unset`: a callable whose second
parameter has an unsupported annotation. -/
theorem failed_analysis_marker_unset_witness :
    ((analyzeCallableArgs
        [⟨"a", .positionalOrKeyword, some (.aty .tint), none⟩,
         ⟨"b", .positionalOrKeyword, some .atyOther, none⟩]
        (setupArglink [] none)).1) =
      { setupArglink [] none with
          entries := ((analyzeCallableArgs
            [⟨"a", .positionalOrKeyword, some (.aty .tint), none⟩,
             ⟨"b", .positionalOrKeyword, some .atyOther, none⟩]
            (setupArglink [] none)).1).entries } ∧
    ((analyzeCallableArgs
        [⟨"a", .positionalOrKeyword, some (.aty .tint), none⟩,
         ⟨"b", .positionalOrKeyword, some .atyOther, none⟩]
        (setupArglink [] none)).1).hasBeenAnalyzed =
      (setupArglink [] none).hasBeenAnalyzed :=
  failed_analysis_marker_unset
    [⟨"a", .positionalOrKeyword, some (.aty .tint), none⟩,
     ⟨"b", .positionalOrKeyword, some .atyOther, none⟩]
    (setupArglink [] none)
    ((analyzeCallableArgs
        [⟨"a", .positionalOrKeyword, some (.aty .tint), none⟩,
         ⟨"b", .positionalOrKeyword, some .atyOther, none⟩]
        (setupArglink [] none)).1)
    .unsupportedType (by rfl)

/-- C8 counterexample: analysis of `(a : int, b : <unsupported>)` fails
at `b`, yet the entry already written for `a` is left behind in the
binding tables attached to the callable — the state is NOT as if the
analysis had never run. -/
theorem failed_analysis_partial_entries :
    (analyzeCallableArgs
        [⟨"a", .positionalOrKeyword, some (.aty .tint), none⟩,
         ⟨"b", .positionalOrKeyword, some .atyOther, none⟩]
        (setupArglink [] none)).2 = some .unsupportedType ∧
    (analyzeCallableArgs
        [⟨"a", .positionalOrKeyword, some (.aty .tint), none⟩,
         ⟨"b", .positionalOrKeyword, some .atyOther, none⟩]
        (setupArglink [] none)).1.entries ≠ [] := by
  constructor
  · rfl
  · decide

/-- C7 (amended): a parameter of a kind other than
`POSITIONAL_OR_KEYWORD` that passes the name filter always aborts the
analysis with `unsupportedParameterKind`, in both the arglink and the
argkit analyzer, and regardless of the `auto_skip` setting; the name
filter itself, however, runs BEFORE the kind assert and does suppress it
(see the accompanying counterexample). -/
theorem kind_error_unsuppressed_after_filter (hm : List (String × String))
    (ign : String → Bool) (cfg : ArgkitConfig) (p q : Param)
    (h1 : ign p.name = false) (h2 : p.kind ≠ .positionalOrKeyword)
    (h3 : argkitIgnored cfg q.name = false)
    (h4 : q.kind ≠ .positionalOrKeyword) :
    arglinkStep hm ign p = .fail .unsupportedParameterKind ∧
    argkitStep cfg q = .fail .unsupportedParameterKind := by
  constructor
  · rw [arglinkStep, if_neg (by simp [h1]), if_neg h2]
  · rw [argkitStep, if_neg (by simp [h3]), if_neg h4]

/-- Witness for `kind_error_unsuppressed_after_filter`: a `*args`-style
parameter for arglink and a `**kwargs`-style parameter for argkit with
`auto_skip` switched on. -/
theorem kind_error_unsuppressed_after_filter_witness :
    arglinkStep [] (fun _ => false)
        ⟨"args", .varPositional, none, none⟩ = .fail .unsupportedParameterKind ∧
    argkitStep ⟨none, none, false, true⟩
        ⟨"kwargs", .varKeyword, none, none⟩ = .fail .unsupportedParameterKind :=
  kind_error_unsuppressed_after_filter [] (fun _ => false)
    ⟨none, none, false, true⟩
    ⟨"args", .varPositional, none, none⟩
    ⟨"kwargs", .varKeyword, none, none⟩
    rfl (by decide) rfl (by decide)

/-- C7 counterexample: a variadic-keyword parameter whose name matches
the default ignore pattern (trailing underscore) is silently skipped by
the name filter of `arglink/core.py` line 160 before the kind assert of
line 163 is ever reached — analysis succeeds with no error instead of
raising `unsupportedParameterKind`. -/
theorem ignored_var_keyword_skipped :
    (analyzeCallableArgs [⟨"extra_", .varKeyword, none, none⟩]
        (setupArglink [] none)).2 = none ∧
    (analyzeCallableArgs [⟨"extra_", .varKeyword, none, none⟩]
        (setupArglink [] none)).1.entries = [] := ⟨rfl, rfl⟩

/-- C3 (amended): in the arglink analyzer a declared annotation always
takes precedence — a concrete in-set annotation fixes the value type, a
non-set or non-type annotation fails with `unsupportedType` even when a
default with an in-set runtime type is present, and the default is never
consulted for the type when any annotation exists. In the argkit
analyzer, by contrast, a present non-None default takes precedence and
the annotation is not consulted at all (see the accompanying
counterexample). -/
theorem infer_annotation_precedence (p : Param) (t : Ty) (d : Value) :
    (p.ann = some (.aty t) → arglinkInferTy p = .ok t) ∧
    ((p.ann = some .atyOther ∨ p.ann = some .anotType) →
      arglinkInferTy p = .error .unsupportedType) ∧
    (∀ d', p.ann ≠ none →
      arglinkInferTy { p with default := d' } = arglinkInferTy p) ∧
    (p.default = some d → d ≠ .vnone →
      argkitInfer p =
        match runtimeTy d with
        | some u => .ok (u, d)
        | none => .error .unsupportedType) := by
  refine ⟨?_, ?_, ?_, ?_⟩
  · intro h
    rw [arglinkInferTy, h]
  · rintro (h | h) <;> rw [arglinkInferTy, h]
  · intro d' h
    rw [arglinkInferTy, arglinkInferTy]
    cases ha : p.ann with
    | none => exact absurd ha h
    | some a => cases a <;> rfl
  · intro hd hne
    rw [argkitInfer, hd]
    simp only [if_neg hne]

/-- Witness for `infer_annotation_precedence` at a parameter annotated
`int` with default `7`. -/
theorem infer_annotation_precedence_witness :
    ((⟨"n", .positionalOrKeyword, some (.aty .tint), some (.vint 7)⟩ : Param).ann
        = some (.aty .tint) →
      arglinkInferTy ⟨"n", .positionalOrKeyword, some (.aty .tint), some (.vint 7)⟩
        = .ok .tint) ∧
    (((⟨"n", .positionalOrKeyword, some (.aty .tint), some (.vint 7)⟩ : Param).ann
          = some .atyOther ∨
        (⟨"n", .positionalOrKeyword, some (.aty .tint), some (.vint 7)⟩ : Param).ann
          = some .anotType) →
      arglinkInferTy ⟨"n", .positionalOrKeyword, some (.aty .tint), some (.vint 7)⟩
        = .error .unsupportedType) ∧
    (∀ d', (⟨"n", .positionalOrKeyword, some (.aty .tint), some (.vint 7)⟩ : Param).ann ≠ none →
      arglinkInferTy { (⟨"n", .positionalOrKeyword, some (.aty .tint), some (.vint 7)⟩ : Param) with default := d' }
        = arglinkInferTy ⟨"n", .positionalOrKeyword, some (.aty .tint), some (.vint 7)⟩) ∧
    ((⟨"n", .positionalOrKeyword, some (.aty .tint), some (.vint 7)⟩ : Param).default
        = some (.vint 7) → (Value.vint 7) ≠ .vnone →
      argkitInfer ⟨"n", .positionalOrKeyword, some (.aty .tint), some (.vint 7)⟩
        = match runtimeTy (.vint 7) with
          | some u => .ok (u, .vint 7)
          | none => .error .unsupportedType) :=
  infer_annotation_precedence
    ⟨"n", .positionalOrKeyword, some (.aty .tint), some (.vint 7)⟩ .tint (.vint 7)

/-- C3 counterexample: in `argkit/core.py` a parameter annotated with a
non-set type (`list`) but carrying the in-set default `3` does NOT fail
with `unsupportedType`; the analyzer infers `int` from the default's
runtime type and synthesizes a normal flag, contradicting the claimed
annotation-first rule for the whole program. -/
theorem argkit_default_first_inference :
    argkitStep ⟨none, none, false, false⟩
        ⟨"x", .positionalOrKeyword, some .atyOther, some (.vint 3)⟩ =
      .add ⟨"x", "x",
        { args := ["--x"], action := .store, coerceTy := some .tint,
          default := some (.vint 3), required := false,
          metavar := some "INT", help := "(default: 3) " }⟩ := by decide

/-- C6: the argkit auto-skip policy. For a retained plain parameter with
no annotation and no usable default, the step fails with
`missingTypeInformation` when `auto_skip` is off and turns into a filter
skip when it is on; an `unsupportedType` inference failure follows the
same off/on policy; and a skipped parameter leaves the binding tables of
the analysis loop untouched (silent omission). -/
theorem auto_skip_policy (cfg : ArgkitConfig) (p : Param)
    (hig : argkitIgnored cfg p.name = false)
    (hk : p.kind = .positionalOrKeyword) :
    ((p.ann = none ∧ (p.default = none ∨ p.default = some .vnone)) →
      (cfg.autoSkip = false →
        argkitStep cfg p = .fail .missingTypeInformation) ∧
      (cfg.autoSkip = true → argkitStep cfg p = .skip)) ∧
    (argkitInfer p = .error .unsupportedType →
      (cfg.autoSkip = false → argkitStep cfg p = .fail .unsupportedType) ∧
      (cfg.autoSkip = true → argkitStep cfg p = .skip)) ∧
    (∀ ps es, argkitStep cfg p = .skip →
      argkitLoop cfg (p :: ps) es = argkitLoop cfg ps es) := by
  refine ⟨?_, ?_, ?_⟩
  · rintro ⟨ha, hd⟩
    have hinf : argkitInfer p = .error .missingTypeInformation := by
      rcases hd with hd | hd <;> rw [argkitInfer, hd] <;> simp [ha]
    constructor <;> intro hs <;>
      rw [argkitStep, if_neg (by simp [hig]), if_pos hk, hinf] <;> simp [hs]
  · intro hinf
    constructor <;> intro hs <;>
      rw [argkitStep, if_neg (by simp [hig]), if_pos hk, hinf] <;> simp [hs]
  · intro ps es hs
    rw [argkitLoop, hs]

/-- Witness for `auto_skip_policy` at an auto-skip configuration and a
parameter with neither annotation nor default. -/
theorem auto_skip_policy_witness :
    (((⟨"u", .positionalOrKeyword, none, none⟩ : Param).ann = none ∧
        ((⟨"u", .positionalOrKeyword, none, none⟩ : Param).default = none ∨
         (⟨"u", .positionalOrKeyword, none, none⟩ : Param).default = some .vnone)) →
      ((⟨none, none, false, true⟩ : ArgkitConfig).autoSkip = false →
        argkitStep ⟨none, none, false, true⟩ ⟨"u", .positionalOrKeyword, none, none⟩
          = .fail .missingTypeInformation) ∧
      ((⟨none, none, false, true⟩ : ArgkitConfig).autoSkip = true →
        argkitStep ⟨none, none, false, true⟩ ⟨"u", .positionalOrKeyword, none, none⟩
          = .skip)) ∧
    (argkitInfer ⟨"u", .positionalOrKeyword, none, none⟩ = .error .unsupportedType →
      ((⟨none, none, false, true⟩ : ArgkitConfig).autoSkip = false →
        argkitStep ⟨none, none, false, true⟩ ⟨"u", .positionalOrKeyword, none, none⟩
          = .fail .unsupportedType) ∧
      ((⟨none, none, false, true⟩ : ArgkitConfig).autoSkip = true →
        argkitStep ⟨none, none, false, true⟩ ⟨"u", .positionalOrKeyword, none, none⟩
          = .skip)) ∧
    (∀ ps es, argkitStep ⟨none, none, false, true⟩ ⟨"u", .positionalOrKeyword, none, none⟩ = .skip →
      argkitLoop ⟨none, none, false, true⟩ (⟨"u", .positionalOrKeyword, none, none⟩ :: ps) es
        = argkitLoop ⟨none, none, false, true⟩ ps es) :=
  auto_skip_policy ⟨none, none, false, true⟩
    ⟨"u", .positionalOrKeyword, none, none⟩ rfl rfl

/-- C4: boolean polarity. A retained boolean parameter whose default is
`False` or absent synthesizes a store-true flag, with the polarity
suffix appended both to the kebab-cased flag token (`-store-true`) and
to the parser key (`_store_true`); a boolean parameter with default
`True` synthesizes the store-false counterpart. Absence of the flag on
the command line yields `False` for a store-true action and `True` for a
store-false action. -/
theorem bool_polarity (hm : List (String × String)) (ign : String → Bool)
    (p : Param) (hig : ign p.name = false)
    (hk : p.kind = .positionalOrKeyword)
    (hb : arglinkInferTy p = .ok .tbool) :
    ((p.default = none ∨ p.default = some (.vbool false)) →
      arglinkStep hm ign p = .add
        { name := p.name, parserKey := p.name ++ "_store_true",
          flag := { args := ["--" ++ kebab p.name ++ "-store-true"],
                    action := .storeTrue, coerceTy := none, default := none,
                    required := false, metavar := none,
                    help := arglinkHelp hm p.name } }) ∧
    (p.default = some (.vbool true) →
      arglinkStep hm ign p = .add
        { name := p.name, parserKey := p.name ++ "_store_false",
          flag := { args := ["--" ++ kebab p.name ++ "-store-false"],
                    action := .storeFalse, coerceTy := none, default := none,
                    required := false, metavar := none,
                    help := arglinkHelp hm p.name } }) ∧
    (∀ fd : FlagDef, fd.action = .storeTrue →
      effDefault fd = some (.vbool false)) ∧
    (∀ fd : FlagDef, fd.action = .storeFalse →
      effDefault fd = some (.vbool true)) := by
  refine ⟨?_, ?_, fun fd h => by rw [effDefault, h], fun fd h => by rw [effDefault, h]⟩
  · intro hd
    rw [arglinkStep, if_neg (by simp [hig]), if_pos hk, hb]
    rcases hd with hd | hd <;> rw [hd] <;> simp [buildEntry, pyEqFalse]
  · intro hd
    rw [arglinkStep, if_neg (by simp [hig]), if_pos hk, hb, hd]
    simp [buildEntry, pyEqFalse]

/-- Witness for `bool_polarity` at the parameter `verbose=False`. -/
theorem bool_polarity_witness :
    (((⟨"verbose", .positionalOrKeyword, none, some (.vbool false)⟩ : Param).default = none ∨
        (⟨"verbose", .positionalOrKeyword, none, some (.vbool false)⟩ : Param).default
          = some (.vbool false)) →
      arglinkStep [] (fun _ => false) ⟨"verbose", .positionalOrKeyword, none, some (.vbool false)⟩
        = .add
        { name := "verbose", parserKey := "verbose" ++ "_store_true",
          flag := { args := ["--" ++ kebab "verbose" ++ "-store-true"],
                    action := .storeTrue, coerceTy := none, default := none,
                    required := false, metavar := none,
                    help := arglinkHelp [] "verbose" } }) ∧
    ((⟨"verbose", .positionalOrKeyword, none, some (.vbool false)⟩ : Param).default
        = some (.vbool true) →
      arglinkStep [] (fun _ => false) ⟨"verbose", .positionalOrKeyword, none, some (.vbool false)⟩
        = .add
        { name := "verbose", parserKey := "verbose" ++ "_store_false",
          flag := { args := ["--" ++ kebab "verbose" ++ "-store-false"],
                    action := .storeFalse, coerceTy := none, default := none,
                    required := false, metavar := none,
                    help := arglinkHelp [] "verbose" } }) ∧
    (∀ fd : FlagDef, fd.action = .storeTrue →
      effDefault fd = some (.vbool false)) ∧
    (∀ fd : FlagDef, fd.action = .storeFalse →
      effDefault fd = some (.vbool true)) :=
  bool_polarity [] (fun _ => false)
    ⟨"verbose", .positionalOrKeyword, none, some (.vbool false)⟩ rfl rfl rfl

/-- C10 (implicit): a retained boolean parameter with no default, or a
default of `None`, synthesizes a store-true flag that is NOT marked
required (the `kwargs` dict of its `add_argument` call carries no
`required` entry), so omitting the flag yields `False` instead of a
missing-argument error — in contrast to a retained non-boolean parameter
without a default, whose flag IS required. -/
theorem bool_never_required (hm : List (String × String)) (ign : String → Bool)
    (p q : Param) (t : Ty)
    (hpig : ign p.name = false) (hpk : p.kind = .positionalOrKeyword)
    (hpb : arglinkInferTy p = .ok .tbool)
    (hpd : p.default = none ∨ p.default = some .vnone)
    (hqig : ign q.name = false) (hqk : q.kind = .positionalOrKeyword)
    (hqt : arglinkInferTy q = .ok t) (hqnb : t ≠ .tbool)
    (hqd : q.default = none) :
    (∃ e, arglinkStep hm ign p = .add e ∧ e.flag.action = .storeTrue ∧
      e.flag.required = false ∧ effDefault e.flag = some (.vbool false)) ∧
    (∃ e, arglinkStep hm ign q = .add e ∧ e.flag.required = true) := by
  constructor
  · refine ⟨{ name := p.name, parserKey := p.name ++ "_store_true",
              flag := { args := ["--" ++ kebab p.name ++ "-store-true"],
                        action := .storeTrue, coerceTy := none, default := none,
                        required := false, metavar := none,
                        help := arglinkHelp hm p.name } }, ?_, rfl, rfl, rfl⟩
    rw [arglinkStep, if_neg (by simp [hpig]), if_pos hpk, hpb]
    rcases hpd with hd | hd <;> rw [hd] <;> simp [buildEntry, pyEqFalse]
  · refine ⟨{ name := q.name, parserKey := q.name,
              flag := { args := ["--" ++ kebab q.name], action := .store,
                        coerceTy := some t, default := none, required := true,
                        metavar := some (metavarName t),
                        help := arglinkHelp hm q.name } }, ?_, rfl⟩
    rw [arglinkStep, if_neg (by simp [hqig]), if_pos hqk, hqt, hqd]
    simp [buildEntry, hqnb]

/-- Witness for `bool_never_required`: boolean `flag: bool` with no
default against `count: int` with no default. -/
theorem bool_never_required_witness :
    (∃ e, arglinkStep [] (fun _ => false)
        ⟨"flag", .positionalOrKeyword, some (.aty .tbool), none⟩ = .add e ∧
      e.flag.action = .storeTrue ∧ e.flag.required = false ∧
      effDefault e.flag = some (.vbool false)) ∧
    (∃ e, arglinkStep [] (fun _ => false)
        ⟨"count", .positionalOrKeyword, some (.aty .tint), none⟩ = .add e ∧
      e.flag.required = true) :=
  bool_never_required [] (fun _ => false)
    ⟨"flag", .positionalOrKeyword, some (.aty .tbool), none⟩
    ⟨"count", .positionalOrKeyword, some (.aty .tint), none⟩
    .tint rfl rfl rfl (Or.inl rfl) rfl rfl rfl (by decide) rfl

/-- C9 (amended): in the arglink analyzer (and the identical argkit core
synthesis) a retained non-boolean parameter gets a flag whose long name
is the kebab-cased parameter name behind the long-flag marker, whose
metavar is the upper-cased type name, which is required exactly when the
parameter has no default, and which, when defaulted, carries the default
value and the rendered-default help prefix. The `cls_arg_to_parser`
synthesizer of `argkit/runtime.py`, however, omits the rendered-default
help prefix (see the accompanying counterexample). -/
theorem nonbool_flag_spec (hm : List (String × String)) (ign : String → Bool)
    (p : Param) (t : Ty) (hig : ign p.name = false)
    (hk : p.kind = .positionalOrKeyword)
    (ht : arglinkInferTy p = .ok t) (hnb : t ≠ .tbool) :
    (∀ d, p.default = some d →
      arglinkStep hm ign p = .add
        { name := p.name, parserKey := p.name,
          flag := { args := ["--" ++ kebab p.name], action := .store,
                    coerceTy := some t, default := some d, required := false,
                    metavar := some (metavarName t),
                    help := "(default: " ++ pyRepr d ++ ") "
                      ++ arglinkHelp hm p.name } }) ∧
    (p.default = none →
      arglinkStep hm ign p = .add
        { name := p.name, parserKey := p.name,
          flag := { args := ["--" ++ kebab p.name], action := .store,
                    coerceTy := some t, default := none, required := true,
                    metavar := some (metavarName t),
                    help := arglinkHelp hm p.name } }) := by
  constructor
  · intro d hd
    rw [arglinkStep, if_neg (by simp [hig]), if_pos hk, ht, hd]
    simp [buildEntry, hnb]
  · intro hd
    rw [arglinkStep, if_neg (by simp [hig]), if_pos hk, ht, hd]
    simp [buildEntry, hnb]

/-- Witness for `nonbool_flag_spec` at `ratio=2` with a configured help
message. -/
theorem nonbool_flag_spec_witness :
    (∀ d, (⟨"ratio", .positionalOrKeyword, none, some (.vint 2)⟩ : Param).default = some d →
      arglinkStep [("ratio", "h")] (fun _ => false)
          ⟨"ratio", .positionalOrKeyword, none, some (.vint 2)⟩ = .add
        { name := "ratio", parserKey := "ratio",
          flag := { args := ["--" ++ kebab "ratio"], action := .store,
                    coerceTy := some .tint, default := some d, required := false,
                    metavar := some (metavarName .tint),
                    help := "(default: " ++ pyRepr d ++ ") "
                      ++ arglinkHelp [("ratio", "h")] "ratio" } }) ∧
    ((⟨"ratio", .positionalOrKeyword, none, some (.vint 2)⟩ : Param).default = none →
      arglinkStep [("ratio", "h")] (fun _ => false)
          ⟨"ratio", .positionalOrKeyword, none, some (.vint 2)⟩ = .add
        { name := "ratio", parserKey := "ratio",
          flag := { args := ["--" ++ kebab "ratio"], action := .store,
                    coerceTy := some .tint, default := none, required := true,
                    metavar := some (metavarName .tint),
                    help := arglinkHelp [("ratio", "h")] "ratio" } }) :=
  nonbool_flag_spec [("ratio", "h")] (fun _ => false)
    ⟨"ratio", .positionalOrKeyword, none, some (.vint 2)⟩ .tint
    rfl rfl rfl (by decide)

/-- C9 counterexample: the defaulted non-boolean parameter `ratio=2`
with configured help `h` gets, from the `cls_arg_to_parser` synthesizer
of `argkit/runtime.py`, a flag whose help text is the configured message
unchanged — not the claimed rendered-default prefix form
`(default: 2) h`. -/
theorem runtime_help_no_default_prefix :
    clsArgStep (some [("ratio", "h")]) none
        ⟨"ratio", .positionalOrKeyword, none, some (.vint 2)⟩ =
      .ok (some ("ratio", "ratio",
        { args := ["--ratio"], action := .store, coerceTy := some .tint,
          default := some (.vint 2), required := false,
          metavar := some "INT", help := "h" })) ∧
    ("h" : String) ≠ "(default: " ++ pyRepr (.vint 2) ++ ") " ++ "h" := by
  constructor
  · rfl
  · decide

/-- C2: the reverse binder. It fails with `missingParsedValue` exactly
when some parser key of the analyzed table is absent from the
parsed-value dict; otherwise it succeeds with a mapping whose keys are
exactly the table's callable-argument names, in table order, and whose
value at each name is the parsed value stored under that binding's
parser key, passed through without any coercion. -/
theorem reverse_binding_spec (table : List (String × String))
    (args : List (String × Value)) :
    ((∃ x ∈ table, alookup args x.2 = none) →
      parserArgsToCallableKwDict table args = .error .missingParsedValue) ∧
    ((∀ x ∈ table, alookup args x.2 ≠ none) →
      parserArgsToCallableKwDict table args =
        .ok (table.map fun x => (x.1, (alookup args x.2).getD .vnone))) := by
  constructor
  · exact kwDict_error_of_missing table args
  · intro h
    refine kwDict_ok_of_lookup table args _ fun x hx => ?_
    cases hl : alookup args x.2 with
    | none => exact absurd hl (h x hx)
    | some v => rfl

/-- Witness for `reverse_binding_spec` at the spec's example table with
one missing and one complete parsed-value dict. -/
theorem reverse_binding_spec_witness :
    ((∃ x ∈ [("count", "count"), ("verbose", "verbose_store_true")],
        alookup [("count", Value.vint 3)] x.2 = none) →
      parserArgsToCallableKwDict
          [("count", "count"), ("verbose", "verbose_store_true")]
          [("count", Value.vint 3)] = .error .missingParsedValue) ∧
    ((∀ x ∈ [("count", "count"), ("verbose", "verbose_store_true")],
        alookup [("count", Value.vint 3)] x.2 ≠ none) →
      parserArgsToCallableKwDict
          [("count", "count"), ("verbose", "verbose_store_true")]
          [("count", Value.vint 3)] =
        .ok ([("count", "count"), ("verbose", "verbose_store_true")].map
          fun x => (x.1, (alookup [("count", Value.vint 3)] x.2).getD .vnone))) :=
  reverse_binding_spec
    [("count", "count"), ("verbose", "verbose_store_true")]
    [("count", Value.vint 3)]

/-- C1 (amended): round-trip of defaults. For a callable all of whose
retained parameters have supported kinds, resolvable types AND declared
default values — with a retained boolean parameter's default being an
actual boolean — and whose synthesized parser keys are pairwise
distinct, analyzing from a fresh decorated state and reverse-binding the
parsed-value dict that assigns every flag its effective default yields
the keyword-argument dict that maps each retained name to its flag's
effective default, and that effective default is exactly the parameter's
original declared default. The extra provisos are forced by the
accompanying counterexample: a retained parameter without a default gets
a required flag with no effective default, so the claimed parsed-value
dict cannot contain its key and reverse binding fails. -/
theorem defaults_round_trip (ps : List Param) (hm : List (String × String))
    (ign : String → Bool) (s1 : ArglinkState)
    (hrun : analyzeCallableArgs ps (setupArglink hm (some ign)) = (s1, none))
    (hnames : (ps.map Param.name).Nodup)
    (hdef : ∀ p ∈ ps, ign p.name = false →
      ∃ d, p.default = some d ∧
        (arglinkInferTy p = .ok .tbool → ∃ b, d = .vbool b))
    (hkeys : (s1.entries.map ArgEntry.parserKey).Nodup) :
    parserArgsToCallableKwDict (parserTable s1.entries) (simParsed s1.entries)
      = .ok (kwOfDefaults s1.entries) ∧
    ∀ p ∈ ps, ∀ e ∈ s1.entries, e.name = p.name →
      effDefault e.flag = p.default := by
  have hloop : arglinkLoop hm ign ps [] = (s1.entries, none) := by
    rw [analyzeCallableArgs] at hrun
    rw [if_neg (by simp [setupArglink])] at hrun
    simp only [setupArglink, Option.getD_some] at hrun
    cases hl : arglinkLoop hm ign ps [] with
    | mk es oerr =>
      rw [hl] at hrun
      cases oerr with
      | some e =>
        have : (some e : Option ArgError) = none := congrArg Prod.snd hrun
        cases this
      | none =>
        have hs : ({ helpMessages := hm, ignore := ign, entries := es,
                     hasBeenAnalyzed := true } : ArglinkState) = s1 :=
          congrArg Prod.fst hrun
        rw [← hs]
  exact round_trip_entries hm ign ps s1.entries hloop hnames hdef hkeys

/-- Witness for `defaults_round_trip` at the callable
`(ratio=2, verbose=False)`. -/
theorem defaults_round_trip_witness :
    parserArgsToCallableKwDict
        (parserTable (analyzeCallableArgs
          [⟨"ratio", .positionalOrKeyword, none, some (.vint 2)⟩,
           ⟨"verbose", .positionalOrKeyword, none, some (.vbool false)⟩]
          (setupArglink [] (some fun _ => false))).1.entries)
        (simParsed (analyzeCallableArgs
          [⟨"ratio", .positionalOrKeyword, none, some (.vint 2)⟩,
           ⟨"verbose", .positionalOrKeyword, none, some (.vbool false)⟩]
          (setupArglink [] (some fun _ => false))).1.entries)
      = .ok (kwOfDefaults (analyzeCallableArgs
          [⟨"ratio", .positionalOrKeyword, none, some (.vint 2)⟩,
           ⟨"verbose", .positionalOrKeyword, none, some (.vbool false)⟩]
          (setupArglink [] (some fun _ => false))).1.entries) ∧
    ∀ p ∈ [(⟨"ratio", .positionalOrKeyword, none, some (.vint 2)⟩ : Param),
           ⟨"verbose", .positionalOrKeyword, none, some (.vbool false)⟩],
      ∀ e ∈ (analyzeCallableArgs
          [⟨"ratio", .positionalOrKeyword, none, some (.vint 2)⟩,
           ⟨"verbose", .positionalOrKeyword, none, some (.vbool false)⟩]
          (setupArglink [] (some fun _ => false))).1.entries,
        e.name = p.name → effDefault e.flag = p.default :=
  defaults_round_trip
    [⟨"ratio", .positionalOrKeyword, none, some (.vint 2)⟩,
     ⟨"verbose", .positionalOrKeyword, none, some (.vbool false)⟩]
    [] (fun _ => false)
    ((analyzeCallableArgs
      [⟨"ratio", .positionalOrKeyword, none, some (.vint 2)⟩,
       ⟨"verbose", .positionalOrKeyword, none, some (.vbool false)⟩]
      (setupArglink [] (some fun _ => false))).1)
    (by rfl)
    (by decide)
    (fun p hp _ => by
      rcases List.mem_cons.mp hp with rfl | hp
      · exact ⟨.vint 2, rfl, fun h => Ty.noConfusion (Except.ok.inj h)⟩
      · rcases List.mem_cons.mp hp with rfl | hp
        · exact ⟨.vbool false, rfl, fun _ => ⟨false, rfl⟩⟩
        · cases hp)
    (by decide)

/-- C1 counterexample: the callable `(count: int)` has only parameters
of supported kinds with resolvable types, and its analysis succeeds; yet
the flag for `count` is required and has no effective default, so the
parsed-value dict built from effective defaults cannot contain its
parser key and reverse binding fails with `missingParsedValue` instead
of yielding a keyword-argument dict of original defaults. -/
theorem required_param_breaks_round_trip :
    (analyzeCallableArgs
        [⟨"count", .positionalOrKeyword, some (.aty .tint), none⟩]
        (setupArglink [] none)).2 = none ∧
    parserArgsToCallableKwDict
        (parserTable (analyzeCallableArgs
          [⟨"count", .positionalOrKeyword, some (.aty .tint), none⟩]
          (setupArglink [] none)).1.entries)
        (simParsed (analyzeCallableArgs
          [⟨"count", .positionalOrKeyword, some (.aty .tint), none⟩]
          (setupArglink [] none)).1.entries)
      = .error .missingParsedValue := ⟨rfl, rfl⟩

end ArgLink
